import Mathlib

/-!
# Verification of the sandbox-runtime policy pipeline

A shallow embedding of the sandbox runtime: host patterns and the network
decision procedure, the live-reconfiguration state machine of the sandbox manager,
the Seatbelt profile builder with its rename-defense (file-write-unlink)
rules, the command wrappers, the wire behaviour of the filtering proxy, and the
seccomp artifact resolver.  The repository ships the configuration schemas
and the integration tests; the enforcement components themselves are
modelled from the specification, and each modelled definition is checked
against the behaviour the tests of the repository pin down.
-/

namespace SandboxRuntime

/-! ## Character-list utilities -/

/-- Splits a character list at every occurrence of `sep`.  The separator is
dropped; empty segments are kept (so the inverse intercalation recovers the
input). -/
def splitOnChar (sep : Char) : List Char → List (List Char)
  | [] => [[]]
  | c :: rest =>
    match splitOnChar sep rest with
    | [] => [[c]]
    | l :: ls => if c = sep then [] :: l :: ls else (c :: l) :: ls

/-- The numeric value of a decimal digit character, if it is one. -/
def charDigit (c : Char) : Option Nat :=
  if '0' ≤ c ∧ c ≤ '9' then some (c.toNat - '0'.toNat) else none

/-- Parses a non-empty all-digit character list as a decimal number. -/
def parseNatChars (cs : List Char) : Option Nat :=
  if cs.isEmpty then none
  else
    cs.foldl
      (fun acc c =>
        match acc, charDigit c with
        | some n, some d => some (10 * n + d)
        | _, _ => none)
      (some 0)

/-! ## Host patterns and the matcher (component C)

The host matcher implementation is not part of the shipped sources (only its
tests are), so it is modelled from the specification, §3 "Host-pattern" and
§4.3. -/

/-- The dot-separated labels of a host string. -/
def hostLabels (s : String) : List (List Char) := splitOnChar '.' s.data

/-- Modelled from the spec: the port component of a host-pattern (§3: "Port
is compared only if present in the pattern").  A pattern `host:port` with a
numeric port splits into the host part and the port; otherwise the whole
pattern is the host part. -/
def splitHostPort (pat : String) : List Char × Option Nat :=
  match splitOnChar ':' pat.data with
  | [h, p] =>
    match parseNatChars p with
    | some n => (h, some n)
    | none => (pat.data, none)
  | _ => (pat.data, none)

/-- Modelled from the spec: label-level host-pattern matching (§3): `*`
matches any host; `*.suffix` matches hosts that have at least one label
before `suffix` (not the bare `suffix`); exact strings match exactly. -/
def matchesHostLabels (patLabels hostLs : List (List Char)) : Bool :=
  match patLabels with
  | [['*']] => true
  | ['*'] :: suffixLabels =>
    suffixLabels.isSuffixOf hostLs && decide (suffixLabels.length < hostLs.length)
  | _ => decide (patLabels = hostLs)

/-- Modelled from the spec: the host matcher (component C, absent from the
shipped sources).  Matches a `(host, port)` pair against one pattern; the
port is compared only if the pattern fixes one (§3). -/
def matchesHostPattern (pat host : String) (port : Nat) : Bool :=
  match splitHostPort pat with
  | (patHost, some p) =>
    decide (p = port) && matchesHostLabels (splitOnChar '.' patHost) (hostLabels host)
  | (patHost, none) => matchesHostLabels (splitOnChar '.' patHost) (hostLabels host)

/-- Network restriction config surfaced by the getters of the manager; fields are
absent (`none`) when no hosts are configured.  Declared in the shipped
`sandbox-schemas` module as `NetworkRestrictionConfig` with both fields
optional. -/
structure NetworkRestrictionConfig where
  allowedHosts : Option (List String)
  deniedHosts : Option (List String)
deriving DecidableEq

/-- Modelled from the spec: the per-`(host, port)` decision procedure of the
host matcher (§4.3, absent from the shipped sources).  Order: (1) any
`deniedHosts` match denies; (2) `allowedHosts` present, non-empty and
containing `"*"` allows; (3) an `allowedHosts` match allows; (4) otherwise
deny.  (The optional ask callback, consulted only at step 4, is not
exercised by the claims and is omitted.) -/
def decideHost (cfg : NetworkRestrictionConfig) (host : String) (port : Nat) : Bool :=
  if (cfg.deniedHosts.getD []).any (fun p => matchesHostPattern p host port) then
    false
  else
    match cfg.allowedHosts with
    | none => false
    | some allowed =>
      if allowed.contains "*" then true
      else allowed.any (fun p => matchesHostPattern p host port)

/-! ## Wildcard matching, characterized -/

/-- A wildcard suffix matches exactly the lists that extend it on the left by
at least one label. -/
theorem suffix_with_room_iff (suf hl : List (List Char)) :
    (suf.isSuffixOf hl && decide (suf.length < hl.length)) = true ↔
      ∃ pre, pre ≠ [] ∧ hl = pre ++ suf := by
  rw [Bool.and_eq_true, decide_eq_true_eq, List.isSuffixOf_iff_suffix]
  constructor
  · rintro ⟨⟨t, ht⟩, hlen⟩
    refine ⟨t, ?_, ht.symm⟩
    rintro rfl
    rw [List.nil_append] at ht
    rw [ht] at hlen
    exact lt_irrefl _ hlen
  · rintro ⟨pre, hpre, rfl⟩
    refine ⟨⟨pre, rfl⟩, ?_⟩
    have : 0 < pre.length := List.length_pos.mpr hpre
    simp [List.length_append]
    omega

/-- Claim C3: the host wildcard matcher is strict.  `*.github.com` matches a
host exactly when the host has at least one label before `github.com`
(unbounded subdomain depth); it matches neither the bare `github.com` nor
lookalike hosts such as `malicious-github.com`. -/
theorem wildcard_matching_is_strict :
    (∀ (host : String) (port : Nat),
      matchesHostPattern "*.github.com" host port = true ↔
        ∃ pre, pre ≠ [] ∧ hostLabels host = pre ++ ["github".data, "com".data]) ∧
    matchesHostPattern "*.github.com" "api.github.com" 443 = true ∧
    matchesHostPattern "*.github.com" "a.b.github.com" 443 = true ∧
    matchesHostPattern "*.github.com" "a.b.c.github.com" 443 = true ∧
    matchesHostPattern "*.github.com" "github.com" 443 = false ∧
    matchesHostPattern "*.github.com" "malicious-github.com" 443 = false := by
  refine ⟨?_, by decide, by decide, by decide, by decide, by decide⟩
  intro host port
  have h : matchesHostPattern "*.github.com" host port =
      (["github".data, "com".data].isSuffixOf (hostLabels host) &&
        decide ((["github".data, "com".data] : List (List Char)).length <
          (hostLabels host).length)) := rfl
  rw [h, suffix_with_room_iff]

/-- Claim C2: the network decision order.  A `deniedHosts` match denies even
when `allowedHosts` contains the literal `"*"`; otherwise the request is
allowed exactly when `allowedHosts` is present and contains `"*"` or a
matching pattern, and denied otherwise. -/
theorem network_decision_order (cfg : NetworkRestrictionConfig) (host : String) (port : Nat) :
    ((cfg.deniedHosts.getD []).any (fun p => matchesHostPattern p host port) = true →
      decideHost cfg host port = false) ∧
    ((cfg.deniedHosts.getD []).any (fun p => matchesHostPattern p host port) = false →
      decideHost cfg host port =
        ((cfg.allowedHosts.getD []).contains "*" ||
          (cfg.allowedHosts.getD []).any (fun p => matchesHostPattern p host port))) := by
  constructor
  · intro hdeny
    simp [decideHost, hdeny]
  · intro hdeny
    cases hall : cfg.allowedHosts with
    | none => simp [decideHost, hdeny, hall]
    | some allowed =>
      simp only [decideHost, hdeny, hall, Bool.false_eq_true, if_false, Option.getD_some]
      by_cases hstar : allowed.contains "*"
      · simp [hstar]
      · simp [hstar]

/-- Witness for C2, at the metadata-endpoint test policy of the repository
(`allowed: ["*"], denied: ["metadata.google.internal", "169.254.169.254"]`). -/
theorem network_decision_order_witness :
    decideHost ⟨some ["*"], some ["metadata.google.internal", "169.254.169.254"]⟩
        "metadata.google.internal" 443 = false ∧
    decideHost ⟨some ["*"], some ["metadata.google.internal", "169.254.169.254"]⟩
        "169.254.169.254" 443 = false ∧
    decideHost ⟨some ["*"], some ["metadata.google.internal", "169.254.169.254"]⟩
        "example.com" 443 = true := by
  refine ⟨?_, ?_, ?_⟩
  · exact (network_decision_order _ _ _).1 (by decide)
  · exact (network_decision_order _ _ _).1 (by decide)
  · rw [(network_decision_order _ _ _).2 (by decide)]
    decide

/-! ## Policy input shape (component B)

The input shape consumed by `initialize`/`updateConfig`, from the shipped
`sandbox-config` schemas (spec §6). -/

/-- The `network` section of the declarative policy: allow/deny domain lists
and the `unrestrictedNetwork` escape flag (absent means `false`). -/
structure NetworkConfig where
  allowedDomains : List String
  deniedDomains : List String
  unrestrictedNetwork : Bool
deriving DecidableEq

/-- The `filesystem` section of the declarative policy: `denyRead` (deny-only
mode) or `allowRead` (allow-only mode, with `denyReadWithinAllow`), plus the
always-allow-only write lists. -/
structure FilesystemConfig where
  denyRead : Option (List String)
  allowRead : Option (List String)
  denyReadWithinAllow : Option (List String)
  allowWrite : List String
  denyWrite : List String
deriving DecidableEq

/-- A full policy snapshot as consumed by `initialize`/`updateConfig`. -/
structure SandboxRuntimeConfig where
  network : NetworkConfig
  filesystem : FilesystemConfig
deriving DecidableEq

/-- Modelled from the spec: the derived network-restriction shape of the manager
(§4.7 getter normalization): empty collections surface as absent (`none`),
so callers can distinguish "deny all" from "no restriction"; non-empty lists
pass through. -/
def getNetworkRestriction (n : NetworkConfig) : NetworkRestrictionConfig :=
  { allowedHosts := if n.allowedDomains.isEmpty then none else some n.allowedDomains
    deniedHosts := if n.deniedDomains.isEmpty then none else some n.deniedDomains }

/-- Modelled from the spec: whether a policy makes network restriction
active, i.e. the proxy must run and the wrapper must carry proxy plumbing
(§3 `unrestricted_network`, §4.7): the network section is always present in
the input shape, so restriction is active exactly when `unrestrictedNetwork`
is not set — even when `allowedDomains` is empty. -/
def needsNetworkRestriction (cfg : SandboxRuntimeConfig) : Bool :=
  !cfg.network.unrestrictedNetwork

/-! ## Sandbox manager state machine (component H)

The `SandboxManager` orchestrator is not part of the shipped sources (only
its tests are), so its lifecycle is modelled from spec §3 "Lifecycle" and
§4.7.  Proxy-port allocation is abstracted by a `freshPort` argument. -/

/-- The mutable state of the manager: the current policy snapshot, the port of the proxy
listener (if one is running), and whether `initialize` has run. -/
structure ManagerState where
  config : Option SandboxRuntimeConfig
  proxyPort : Option Nat
  live : Bool
deriving DecidableEq

/-- Modelled from the spec: the `Uninitialized` state (§3 Lifecycle), which
`reset` returns to (§4.7): no snapshot, no proxy listener. -/
def resetManager : ManagerState :=
  { config := none, proxyPort := none, live := false }

/-- Modelled from the spec: `initialize(policy)` from the clean state (§4.7):
stores the snapshot and starts the proxy on a fresh port exactly when
network restriction is active and not unrestricted.  (Re-initialization
without an intervening `reset` fails and is outside the claims.) -/
def initManager (freshPort : Nat) (cfg : SandboxRuntimeConfig) : ManagerState :=
  { config := some cfg
    proxyPort := if needsNetworkRestriction cfg then some freshPort else none
    live := true }

/-- Whether a proxy listener is currently demanded by the state: the manager
is initialized and the stored policy keeps network restriction active. -/
def statePresence (s : ManagerState) : Bool :=
  match s.config with
  | some cfg => s.live && needsNetworkRestriction cfg
  | none => false

/-- Modelled from the spec: `updateConfig(policy)` (§4.7): before
`initialize` it only stores the pending policy; after, it atomically
replaces the live snapshot and (re)starts or stops the proxy only if the
presence of network restriction changes, preserving the port when it does
not. -/
def updateConfig (freshPort : Nat) (s : ManagerState) (cfg : SandboxRuntimeConfig) :
    ManagerState :=
  if s.live then
    { config := some cfg
      live := true
      proxyPort :=
        if needsNetworkRestriction cfg = statePresence s then s.proxyPort
        else if needsNetworkRestriction cfg then some freshPort else none }
  else { s with config := some cfg }

/-- Modelled from the spec: `getProxyPort()` (§4.7). -/
def getProxyPort (s : ManagerState) : Option Nat := s.proxyPort

/-- Modelled from the spec: `getConfig()` (§4.7): the stored policy snapshot,
with empty collections kept explicit. -/
def getConfig (s : ManagerState) : Option SandboxRuntimeConfig := s.config

/-- Modelled from the spec: `getNetworkRestrictionConfig()` (§4.7), the
normalized derived shape of the network section of the current snapshot. -/
def getNetworkRestrictionConfig (s : ManagerState) : NetworkRestrictionConfig :=
  match s.config with
  | some cfg => getNetworkRestriction cfg.network
  | none => { allowedHosts := none, deniedHosts := none }

/-- Modelled from the spec: a proxy decision for one connection (§4.6 item
3): the decision procedure §4.3 applied to the *current* policy snapshot. -/
def proxyDecision (s : ManagerState) (host : String) (port : Nat) : Bool :=
  match s.config with
  | some cfg => decideHost (getNetworkRestriction cfg.network) host port
  | none => false

/-- The empty filesystem section used by the test suite (`denyRead: [], allowWrite: [],
denyWrite: []`). -/
def emptyFilesystem : FilesystemConfig :=
  { denyRead := some [], allowRead := none, denyReadWithinAllow := none
    allowWrite := [], denyWrite := [] }

/-- The test policy blocking all network egress (`allowedDomains: []`). -/
def blockAllCfg : SandboxRuntimeConfig :=
  { network := { allowedDomains := [], deniedDomains := [], unrestrictedNetwork := false }
    filesystem := emptyFilesystem }

/-- The test policy allowing only `example.com`. -/
def allowExampleCfg : SandboxRuntimeConfig :=
  { network := { allowedDomains := ["example.com"], deniedDomains := [],
                 unrestrictedNetwork := false }
    filesystem := emptyFilesystem }

/-- Claim C4: a proxy decision made after `updateConfig(Π)` returns is
computed against Π, not against the policy in force when the proxy was
started — in general, and concretely on the block-then-allow and
allow-then-block sequences, on the same running proxy (same port). -/
theorem proxy_decision_uses_current_snapshot :
    (∀ (freshPort : Nat) (s : ManagerState) (cfg : SandboxRuntimeConfig)
        (host : String) (port : Nat),
      proxyDecision (updateConfig freshPort s cfg) host port =
        decideHost (getNetworkRestriction cfg.network) host port) ∧
    proxyDecision (initManager 7 blockAllCfg) "example.com" 443 = false ∧
    proxyDecision (updateConfig 9 (initManager 7 blockAllCfg) allowExampleCfg)
      "example.com" 443 = true ∧
    getProxyPort (updateConfig 9 (initManager 7 blockAllCfg) allowExampleCfg) = some 7 ∧
    proxyDecision (updateConfig 9 (initManager 7 allowExampleCfg) blockAllCfg)
      "example.com" 443 = false ∧
    getProxyPort (updateConfig 9 (initManager 7 allowExampleCfg) blockAllCfg) = some 7 := by
  refine ⟨?_, by decide, by decide, by decide, by decide, by decide⟩
  intro freshPort s cfg host port
  unfold updateConfig
  split <;> simp [proxyDecision]

/-- Claim C5: `updateConfig` leaves the port of the proxy listener unchanged
whenever the presence of a network restriction is unchanged; the port is
cleared only by `reset`. -/
theorem update_config_preserves_proxy_port (freshPort : Nat) (s : ManagerState)
    (cfg : SandboxRuntimeConfig)
    (hpres : needsNetworkRestriction cfg = statePresence s) :
    getProxyPort (updateConfig freshPort s cfg) = getProxyPort s ∧
    getProxyPort resetManager = none := by
  refine ⟨?_, rfl⟩
  unfold updateConfig getProxyPort
  split
  · simp [hpres]
  · rfl

/-- Witness for C5: updating the running block-all manager to the
allow-`example.com` policy (restriction stays present) keeps port 7. -/
theorem update_config_preserves_proxy_port_witness :
    getProxyPort (updateConfig 9 (initManager 7 blockAllCfg) allowExampleCfg) =
      getProxyPort (initManager 7 blockAllCfg) ∧
    getProxyPort resetManager = none :=
  update_config_preserves_proxy_port 9 (initManager 7 blockAllCfg) allowExampleCfg
    (by decide)

/-- Claim C6: getter normalization: when the stored policy holds an empty
collection, `getNetworkRestrictionConfig()` surfaces that field as absent,
for `allowedHosts` and `deniedHosts` alike, while `getConfig()` still
returns the stored policy with its explicit empty array. -/
theorem getter_normalizes_empty_collections (s : ManagerState)
    (cfg : SandboxRuntimeConfig) (hs : s.config = some cfg) :
    (cfg.network.allowedDomains = [] →
      (getNetworkRestrictionConfig s).allowedHosts = none) ∧
    (cfg.network.deniedDomains = [] →
      (getNetworkRestrictionConfig s).deniedHosts = none) ∧
    (cfg.network.allowedDomains ≠ [] →
      (getNetworkRestrictionConfig s).allowedHosts = some cfg.network.allowedDomains) ∧
    getConfig s = some cfg := by
  refine ⟨?_, ?_, ?_, hs⟩ <;> intro h <;>
    simp [getNetworkRestrictionConfig, hs, getNetworkRestriction, h]

/-- Witness for C6: after updating the running allow-`example.com` manager to
the block-all policy, the getter surfaces `allowedHosts` as absent while the
stored policy keeps the explicit empty list. -/
theorem getter_normalizes_empty_collections_witness :
    (blockAllCfg.network.allowedDomains = [] →
      (getNetworkRestrictionConfig
        (updateConfig 9 (initManager 7 allowExampleCfg) blockAllCfg)).allowedHosts = none) ∧
    (blockAllCfg.network.deniedDomains = [] →
      (getNetworkRestrictionConfig
        (updateConfig 9 (initManager 7 allowExampleCfg) blockAllCfg)).deniedHosts = none) ∧
    (blockAllCfg.network.allowedDomains ≠ [] →
      (getNetworkRestrictionConfig
        (updateConfig 9 (initManager 7 allowExampleCfg) blockAllCfg)).allowedHosts =
          some blockAllCfg.network.allowedDomains) ∧
    getConfig (updateConfig 9 (initManager 7 allowExampleCfg) blockAllCfg) =
      some blockAllCfg :=
  getter_normalizes_empty_collections
    (updateConfig 9 (initManager 7 allowExampleCfg) blockAllCfg) blockAllCfg (by decide)

/-! ## Pattern & path utilities (component A)

Modelled from spec §4.1; the utilities themselves are not in the shipped
sources. -/

/-- A glob metacharacter (`*`, `?`, `[`; `**` is covered by `*`). -/
def isGlobChar (c : Char) : Bool := c = '*' || c = '?' || c = '['

/-- Modelled from the spec: syntactic literal-vs-glob classification of a
path-pattern (§3 "Path-pattern", §4.1 `is_glob`). -/
def isGlobPattern (p : String) : Bool := p.data.any isGlobChar

/-- The non-empty `/`-separated components of a path string. -/
def pathComponents (p : String) : List (List Char) :=
  (splitOnChar '/' p.data).filter (fun c => !c.isEmpty)

/-- Renders components back into an absolute path (`[]` is the root `/`). -/
def joinPath (cs : List (List Char)) : String :=
  if cs.isEmpty then "/"
  else String.mk (cs.foldl (fun acc c => acc ++ ('/' :: c)) [])

/-- The chain of paths obtained by repeatedly dropping the last component,
given the components in reverse order; always ends at the root `/`. -/
def ancestorChain : List (List Char) → List String
  | [] => ["/"]
  | c :: rest => joinPath (c :: rest).reverse :: ancestorChain rest

/-- Modelled from the spec: `ancestors(p)`, the ordered list
`[p, parent(p), …, "/"]` (§4.1). -/
def ancestors (p : String) : List String :=
  p ::
    (match (pathComponents p).reverse with
     | [] => if p = "/" then [] else ["/"]
     | _ :: restRev => ancestorChain restRev)

/-- The leading components of a pattern up to (excluding) the first component
containing a glob metacharacter. -/
def literalComponents : List (List Char) → List (List Char)
  | [] => []
  | c :: rest => if c.any isGlobChar then [] else c :: literalComponents rest

/-- Modelled from the spec: `glob_ancestors(pattern)`, the deepest literal
directory of a glob pattern together with its ancestors (§4.1); e.g.
`/a/b/**/*.txt ↦ [/a/b, /a, /]`. -/
def globAncestors (pat : String) : List String :=
  ancestorChain (literalComponents (pathComponents pat)).reverse

/-- Modelled from the spec: the targets of the `file-write-unlink` deny rules
emitted for one read-deny or write-deny-within-allow pattern (§4.4): the
pattern itself, and every ancestor directory up to `/` — through the deepest
literal prefix when the pattern is a glob. -/
def unlinkTargets (p : String) : List String :=
  if isGlobPattern p then p :: globAncestors p else ancestors p

/-! ## Filesystem restriction configs (shipped `sandbox-schemas` module) -/

/-- Read restriction config: `denyOnly` (maximally permissive) or
`allowOnly` with `denyWithinAllow` (maximally restrictive), as declared in
the shipped schemas. -/
inductive FsReadRestrictionConfig
  | denyOnly (denyOnlyPaths : List String)
  | allowOnly (allowOnlyPaths denyWithinAllowPaths : List String)
deriving DecidableEq

/-- Type guard from the shipped schemas: is the read config deny-only? -/
def isReadDenyOnlyConfig : FsReadRestrictionConfig → Bool
  | .denyOnly _ => true
  | .allowOnly _ _ => false

/-- Type guard from the shipped schemas: is the read config allow-only? -/
def isReadAllowOnlyConfig : FsReadRestrictionConfig → Bool
  | .denyOnly _ => false
  | .allowOnly _ _ => true

/-- Write restriction config, always allow-only with `denyWithinAllow`
exceptions, as declared in the shipped schemas. -/
structure FsWriteRestrictionConfig where
  allowOnly : List String
  denyWithinAllow : List String
deriving DecidableEq

/-! ## Seatbelt profile builder (component D)

The macOS profile builder `wrapCommandWithSandboxMacOS` is not in the
shipped sources (only its tests are); the emitted SBPL profile is modelled
from spec §4.4 as a list of rules. -/

/-- One SBPL rule of the generated Seatbelt profile. -/
inductive SbRule
  | allowBaseOperations
  | allowNetworkAll
  | denyNetworkOutbound
  | allowNetworkLocalhost (port : Nat)
  | allowFileReadAll
  | denyFileReadAll
  | denyFileRead (target : String)
  | allowFileRead (target : String)
  | denyFileWriteAll
  | allowFileWrite (target : String)
  | denyFileWrite (target : String)
  | denyFileWriteUnlink (target : String)
deriving DecidableEq

/-- Modelled from the spec: the implicit system read paths appended to the
effective allow list in allow-only mode (§3 Invariants, §4.4). -/
def defaultReadPaths : List String :=
  ["/bin", "/usr", "/etc/resolv.conf"]

/-- Modelled from the spec: the network section of the profile (§4.4): under
restriction, deny `network-outbound` except to the loopback proxy;
otherwise `(allow network*)`. -/
def networkRules (needsNet : Bool) (port : Nat) : List SbRule :=
  if needsNet then [SbRule.denyNetworkOutbound, SbRule.allowNetworkLocalhost port]
  else [SbRule.allowNetworkAll]

/-- Modelled from the spec: the read section of the profile (§4.4), with the
rename-defense `file-write-unlink` deny rules for every read-deny pattern. -/
def readRules : Option FsReadRestrictionConfig → List SbRule
  | none => [SbRule.allowFileReadAll]
  | some (.denyOnly denies) =>
    SbRule.allowFileReadAll ::
      (denies.map SbRule.denyFileRead ++
        denies.flatMap (fun p => (unlinkTargets p).map SbRule.denyFileWriteUnlink))
  | some (.allowOnly allows denyWithin) =>
    SbRule.denyFileReadAll ::
      (allows.map SbRule.allowFileRead ++
        defaultReadPaths.map SbRule.allowFileRead ++
        denyWithin.map SbRule.denyFileRead ++
        denyWithin.flatMap (fun p => (unlinkTargets p).map SbRule.denyFileWriteUnlink))

/-- Modelled from the spec: the write section of the profile (§4.4), with the
rename-defense `file-write-unlink` deny rules for every
write-deny-within-allow pattern. -/
def writeRules : Option FsWriteRestrictionConfig → List SbRule
  | none => []
  | some w =>
    SbRule.denyFileWriteAll ::
      (w.allowOnly.map SbRule.allowFileWrite ++
        w.denyWithinAllow.map SbRule.denyFileWrite ++
        w.denyWithinAllow.flatMap (fun p => (unlinkTargets p).map SbRule.denyFileWriteUnlink))

/-- Modelled from the spec: the full Seatbelt profile emitted by the macOS
profile builder (§4.4): `(deny default)` base allowances, then network,
read, and write sections. -/
def buildSeatbeltProfile (needsNet : Bool) (port : Nat)
    (readCfg : Option FsReadRestrictionConfig)
    (writeCfg : Option FsWriteRestrictionConfig) : List SbRule :=
  SbRule.allowBaseOperations ::
    (networkRules needsNet port ++ (readRules readCfg ++ writeRules writeCfg))

/-- Every unlink target of a read-deny pattern yields a deny rule in the
profile. -/
theorem unlink_target_rule_mem (needsNet : Bool) (port : Nat)
    (readCfg : Option FsReadRestrictionConfig)
    (writeCfg : Option FsWriteRestrictionConfig) (P : String)
    (hP : (∃ denies, readCfg = some (FsReadRestrictionConfig.denyOnly denies) ∧
            P ∈ denies) ∨
          (∃ allows denyW,
            readCfg = some (FsReadRestrictionConfig.allowOnly allows denyW) ∧
            P ∈ denyW) ∨
          (∃ w, writeCfg = some w ∧ P ∈ w.denyWithinAllow))
    (t : String) (ht : t ∈ unlinkTargets P) :
    SbRule.denyFileWriteUnlink t ∈ buildSeatbeltProfile needsNet port readCfg writeCfg := by
  rcases hP with ⟨denies, hcfg, hPmem⟩ | ⟨allows, denyW, hcfg, hPmem⟩ | ⟨w, hcfg, hPmem⟩ <;>
    subst hcfg
  · have hflat : SbRule.denyFileWriteUnlink t ∈
        denies.flatMap (fun p => (unlinkTargets p).map SbRule.denyFileWriteUnlink) :=
      List.mem_flatMap.mpr ⟨P, hPmem, List.mem_map_of_mem _ ht⟩
    exact List.mem_cons_of_mem _ (List.mem_append_right _
      (List.mem_append_left _ (List.mem_cons_of_mem _ (List.mem_append_right _ hflat))))
  · have hflat : SbRule.denyFileWriteUnlink t ∈
        denyW.flatMap (fun p => (unlinkTargets p).map SbRule.denyFileWriteUnlink) :=
      List.mem_flatMap.mpr ⟨P, hPmem, List.mem_map_of_mem _ ht⟩
    exact List.mem_cons_of_mem _ (List.mem_append_right _
      (List.mem_append_left _ (List.mem_cons_of_mem _ (List.mem_append_right _ hflat))))
  · have hflat : SbRule.denyFileWriteUnlink t ∈
        w.denyWithinAllow.flatMap (fun p => (unlinkTargets p).map SbRule.denyFileWriteUnlink) :=
      List.mem_flatMap.mpr ⟨P, hPmem, List.mem_map_of_mem _ ht⟩
    exact List.mem_cons_of_mem _ (List.mem_append_right _
      (List.mem_append_right _ (List.mem_cons_of_mem _ (List.mem_append_right _ hflat))))

/-- Claim C1: for every read-deny pattern `P` and every write
deny-within-allow pattern `P`, the generated Seatbelt profile contains
`file-write-unlink` deny rules covering `P` itself and every ancestor
directory of `P` up to `/` (through the deepest literal prefix for glob
patterns), so a sandboxed rename of the protected path or of any of its
ancestors is denied. -/
theorem seatbelt_unlink_covers_pattern_and_ancestors (needsNet : Bool) (port : Nat)
    (readCfg : Option FsReadRestrictionConfig)
    (writeCfg : Option FsWriteRestrictionConfig) (P : String)
    (hP : (∃ denies, readCfg = some (FsReadRestrictionConfig.denyOnly denies) ∧
            P ∈ denies) ∨
          (∃ allows denyW,
            readCfg = some (FsReadRestrictionConfig.allowOnly allows denyW) ∧
            P ∈ denyW) ∨
          (∃ w, writeCfg = some w ∧ P ∈ w.denyWithinAllow)) :
    SbRule.denyFileWriteUnlink P ∈ buildSeatbeltProfile needsNet port readCfg writeCfg ∧
    ∀ a ∈ (if isGlobPattern P then globAncestors P else ancestors P),
      SbRule.denyFileWriteUnlink a ∈ buildSeatbeltProfile needsNet port readCfg writeCfg := by
  constructor
  · refine unlink_target_rule_mem needsNet port readCfg writeCfg P hP P ?_
    unfold unlinkTargets
    split
    · exact List.mem_cons_self _ _
    · unfold ancestors
      exact List.mem_cons_self _ _
  · intro a ha
    refine unlink_target_rule_mem needsNet port readCfg writeCfg P hP a ?_
    unfold unlinkTargets
    by_cases hg : isGlobPattern P
    · rw [if_pos hg] at ha ⊢
      exact List.mem_cons_of_mem _ ha
    · rw [if_neg hg] at ha ⊢
      exact ha

/-- Witness for C1, at the test configuration of the repository
`denyOnly: ["/t/denied/secret"]` (deep literal path) together with a write
config denying the glob `/t/a/glob/*.txt` within `/t/a`. -/
theorem seatbelt_unlink_covers_pattern_and_ancestors_witness :
    (SbRule.denyFileWriteUnlink "/t/denied/secret" ∈
        buildSeatbeltProfile false 0
          (some (FsReadRestrictionConfig.denyOnly ["/t/denied/secret"]))
          (some { allowOnly := ["/t/a"], denyWithinAllow := ["/t/a/glob/*.txt"] }) ∧
      ∀ a ∈ (if isGlobPattern "/t/denied/secret" then globAncestors "/t/denied/secret"
             else ancestors "/t/denied/secret"),
        SbRule.denyFileWriteUnlink a ∈
          buildSeatbeltProfile false 0
            (some (FsReadRestrictionConfig.denyOnly ["/t/denied/secret"]))
            (some { allowOnly := ["/t/a"], denyWithinAllow := ["/t/a/glob/*.txt"] })) ∧
    (SbRule.denyFileWriteUnlink "/t/a/glob/*.txt" ∈
        buildSeatbeltProfile false 0
          (some (FsReadRestrictionConfig.denyOnly ["/t/denied/secret"]))
          (some { allowOnly := ["/t/a"], denyWithinAllow := ["/t/a/glob/*.txt"] }) ∧
      ∀ a ∈ (if isGlobPattern "/t/a/glob/*.txt" then globAncestors "/t/a/glob/*.txt"
             else ancestors "/t/a/glob/*.txt"),
        SbRule.denyFileWriteUnlink a ∈
          buildSeatbeltProfile false 0
            (some (FsReadRestrictionConfig.denyOnly ["/t/denied/secret"]))
            (some { allowOnly := ["/t/a"], denyWithinAllow := ["/t/a/glob/*.txt"] })) :=
  ⟨seatbelt_unlink_covers_pattern_and_ancestors false 0 _ _ "/t/denied/secret"
      (Or.inl ⟨_, rfl, by decide⟩),
    seatbelt_unlink_covers_pattern_and_ancestors false 0 _ _ "/t/a/glob/*.txt"
      (Or.inr (Or.inr ⟨_, rfl, by decide⟩))⟩

/-! ## Command wrappers (components E and H)

The platform wrapper builders are not in the shipped sources (only the
tests that inspect the returned string are); modelled from spec §4.5
"Network proxy plumbing" and §6 "Wrapper output". -/

/-- Shell-quotes the wrapped command for `<shell> -c`. -/
def shellQuote (command : String) : String := "\"" ++ command ++ "\""

/-- Modelled from the spec: the `HTTP_PROXY`/`HTTPS_PROXY` environment
assignments placed in front of the wrapper when network restriction is
active (§4.5, §6), pointing at the loopback proxy of the manager. -/
def proxyEnv (port : Nat) : String :=
  "HTTP_PROXY" ++ ("=http://localhost:" ++ (toString port ++
    (" " ++ ("HTTPS_PROXY" ++ ("=http://localhost:" ++ (toString port ++ " "))))))

/-- Modelled from the spec: `wrapCommandWithSandboxMacOS` (§6):
`sandbox-exec -f <profile-file> <shell> -c <quoted-command>`, prefixed with
the proxy environment exactly when network restriction is active. -/
def wrapCommandWithSandboxMacOS (needsNet : Bool) (proxyPort : Nat)
    (profileFile shellBin command : String) : String :=
  (if needsNet then proxyEnv proxyPort else "") ++
    ("sandbox-exec -f " ++ (profileFile ++ (" " ++ (shellBin ++
      (" -c " ++ shellQuote command)))))

/-- Modelled from the spec: `wrapCommandWithSandboxLinux` (§6):
`bwrap <jail-args> -- <shell> -c <quoted-command>`, prefixed with the proxy
environment exactly when network restriction is active. -/
def wrapCommandWithSandboxLinux (needsNet : Bool) (proxyPort : Nat)
    (jailArgs shellBin command : String) : String :=
  (if needsNet then proxyEnv proxyPort else "") ++
    ("bwrap " ++ (jailArgs ++ (" -- " ++ (shellBin ++
      (" -c " ++ shellQuote command)))))

/-- Claim C7: when network restriction is active and not unrestricted — in
particular even when allowed hosts are empty, since restriction-presence
does not look at the allowlist — the wrapper string carries the
`HTTP_PROXY`/`HTTPS_PROXY` proxy plumbing on macOS, and the `HTTP_PROXY`
plumbing on Linux, so a later `updateConfig` can open access without
re-wrapping. -/
theorem wrapper_keeps_proxy_plumbing (cfg : SandboxRuntimeConfig)
    (hres : cfg.network.unrestrictedNetwork = false) :
    needsNetworkRestriction cfg = true ∧
    (∀ (port : Nat) (profileFile shellBin command : String), ∃ rest,
      wrapCommandWithSandboxMacOS (needsNetworkRestriction cfg) port
          profileFile shellBin command = "HTTP_PROXY" ++ rest) ∧
    (∀ (port : Nat) (profileFile shellBin command : String), ∃ pre post,
      wrapCommandWithSandboxMacOS (needsNetworkRestriction cfg) port
          profileFile shellBin command = pre ++ ("HTTPS_PROXY" ++ post)) ∧
    (∀ (port : Nat) (jailArgs shellBin command : String), ∃ rest,
      wrapCommandWithSandboxLinux (needsNetworkRestriction cfg) port
          jailArgs shellBin command = "HTTP_PROXY" ++ rest) := by
  have hneed : needsNetworkRestriction cfg = true := by
    simp [needsNetworkRestriction, hres]
  refine ⟨hneed, ?_, ?_, ?_⟩
  · intro port profileFile shellBin command
    refine ⟨"=http://localhost:" ++ (toString port ++
      (" " ++ ("HTTPS_PROXY" ++ ("=http://localhost:" ++ (toString port ++ " "))))) ++
        ("sandbox-exec -f " ++ (profileFile ++ (" " ++ (shellBin ++
          (" -c " ++ shellQuote command))))), ?_⟩
    simp [wrapCommandWithSandboxMacOS, proxyEnv, hneed, String.append_assoc]
  · intro port profileFile shellBin command
    refine ⟨"HTTP_PROXY" ++ ("=http://localhost:" ++ (toString port ++ " ")),
      "=http://localhost:" ++ (toString port ++ " ") ++
        ("sandbox-exec -f " ++ (profileFile ++ (" " ++ (shellBin ++
          (" -c " ++ shellQuote command))))), ?_⟩
    simp [wrapCommandWithSandboxMacOS, proxyEnv, hneed, String.append_assoc]
  · intro port jailArgs shellBin command
    refine ⟨"=http://localhost:" ++ (toString port ++
      (" " ++ ("HTTPS_PROXY" ++ ("=http://localhost:" ++ (toString port ++ " "))))) ++
        ("bwrap " ++ (jailArgs ++ (" -- " ++ (shellBin ++
          (" -c " ++ shellQuote command))))), ?_⟩
    simp [wrapCommandWithSandboxLinux, proxyEnv, hneed, String.append_assoc]

/-- Witness for C7, at the test policy with an empty allowlist and a
non-empty denylist (`allowedDomains: [], deniedDomains: ["example.com"]`):
the wrapper still carries the proxy environment. -/
theorem wrapper_keeps_proxy_plumbing_witness :
    needsNetworkRestriction
      { network := { allowedDomains := [], deniedDomains := ["example.com"],
                     unrestrictedNetwork := false }
        filesystem := emptyFilesystem } = true ∧
    (∀ (port : Nat) (profileFile shellBin command : String), ∃ rest,
      wrapCommandWithSandboxMacOS
          (needsNetworkRestriction
            { network := { allowedDomains := [], deniedDomains := ["example.com"],
                           unrestrictedNetwork := false }
              filesystem := emptyFilesystem }) port
          profileFile shellBin command = "HTTP_PROXY" ++ rest) ∧
    (∀ (port : Nat) (profileFile shellBin command : String), ∃ pre post,
      wrapCommandWithSandboxMacOS
          (needsNetworkRestriction
            { network := { allowedDomains := [], deniedDomains := ["example.com"],
                           unrestrictedNetwork := false }
              filesystem := emptyFilesystem }) port
          profileFile shellBin command = pre ++ ("HTTPS_PROXY" ++ post)) ∧
    (∀ (port : Nat) (jailArgs shellBin command : String), ∃ rest,
      wrapCommandWithSandboxLinux
          (needsNetworkRestriction
            { network := { allowedDomains := [], deniedDomains := ["example.com"],
                           unrestrictedNetwork := false }
              filesystem := emptyFilesystem }) port
          jailArgs shellBin command = "HTTP_PROXY" ++ rest) :=
  wrapper_keeps_proxy_plumbing
    { network := { allowedDomains := [], deniedDomains := ["example.com"],
                   unrestrictedNetwork := false }
      filesystem := emptyFilesystem } (by decide)

/-! ## End-to-end network reachability and the filesystem frame (C8) -/

/-- Modelled from the spec: whether a sandboxed process can reach
`(host, port)` under a network section (§3, §4.6): in `unrestricted_network`
mode proxying is bypassed entirely and everything is reachable; otherwise
all egress goes through the filtering proxy, which applies the §4.3
decision. -/
def networkReachable (n : NetworkConfig) (host : String) (port : Nat) : Bool :=
  n.unrestrictedNetwork || decideHost (getNetworkRestriction n) host port

/-- Whether an SBPL rule is a filesystem (file-read/file-write) rule. -/
def isFileRule : SbRule → Bool
  | .allowFileReadAll => true
  | .denyFileReadAll => true
  | .denyFileRead _ => true
  | .allowFileRead _ => true
  | .denyFileWriteAll => true
  | .allowFileWrite _ => true
  | .denyFileWrite _ => true
  | .denyFileWriteUnlink _ => true
  | .allowBaseOperations => false
  | .allowNetworkAll => false
  | .denyNetworkOutbound => false
  | .allowNetworkLocalhost _ => false

/-- Claim C8: with `allowedDomains: []` and `unrestrictedNetwork` unset,
every network request is blocked; with `unrestrictedNetwork: true`, every
network request is allowed and proxying is bypassed entirely
(restriction-presence is off); and the filesystem rules of the generated
profile do not depend on the network settings in either case. -/
theorem empty_allowlist_blocks_unrestricted_bypasses :
    (∀ (denied : List String) (host : String) (port : Nat),
      networkReachable
        { allowedDomains := [], deniedDomains := denied, unrestrictedNetwork := false }
        host port = false) ∧
    (∀ (denied : List String) (host : String) (port : Nat),
      networkReachable
        { allowedDomains := [], deniedDomains := denied, unrestrictedNetwork := true }
        host port = true) ∧
    (∀ (denied : List String) (fs : FilesystemConfig),
      needsNetworkRestriction
        { network := { allowedDomains := [], deniedDomains := denied,
                       unrestrictedNetwork := true }
          filesystem := fs } = false) ∧
    (∀ (n₁ n₂ : Bool) (p₁ p₂ : Nat) (readCfg : Option FsReadRestrictionConfig)
        (writeCfg : Option FsWriteRestrictionConfig),
      (buildSeatbeltProfile n₁ p₁ readCfg writeCfg).filter isFileRule =
        (buildSeatbeltProfile n₂ p₂ readCfg writeCfg).filter isFileRule) := by
  refine ⟨?_, ?_, ?_, ?_⟩
  · intro denied host port
    simp only [networkReachable, getNetworkRestriction, decideHost]
    simp only [List.isEmpty_nil, if_true, Bool.false_or]
    split <;> split <;> rfl
  · intro denied host port
    simp [networkReachable]
  · intro denied fs
    simp [needsNetworkRestriction]
  · intro n₁ n₂ p₁ p₂ readCfg writeCfg
    cases n₁ <;> cases n₂ <;>
      simp [buildSeatbeltProfile, networkRules, List.filter_append, isFileRule]

/-! ## Filtering proxy wire behaviour (component G)

The proxy implementation is not in the shipped sources (only the tests that
speak raw HTTP to it are); modelled from spec §4.6 and §6 "Proxy wire
behavior". -/

/-- A parsed inbound proxy request: a `CONNECT host:port` tunnel request or
a plain HTTP request with its `Host:` header. -/
inductive ProxyRequest
  | connect (host : String) (port : Nat)
  | plainHttp (host : String) (port : Nat)
deriving DecidableEq

/-- The target host of a parsed request. -/
def ProxyRequest.host : ProxyRequest → String
  | .connect h _ => h
  | .plainHttp h _ => h

/-- The target port of a parsed request. -/
def ProxyRequest.port : ProxyRequest → Nat
  | .connect _ p => p
  | .plainHttp _ p => p

/-- What the proxy does with one accepted, parsed connection. -/
inductive ProxyAction
  | tunnel (reply : String)
  | forward
  | deny (reply : String) (close : Bool)
deriving DecidableEq

/-- The body of every denied reply. -/
def blockedBody : String := "blocked by network allowlist"

/-- Modelled from the spec: the denied wire reply (§6):
`HTTP/1.1 403 Forbidden\r\nContent-Length: N\r\n\r\nblocked by network
allowlist`. -/
def blockedReply : String :=
  "HTTP/1.1 403 Forbidden" ++ ("\r\nContent-Length: " ++
    (toString blockedBody.length ++ ("\r\n\r\n" ++ blockedBody)))

/-- Modelled from the spec: the handling by the filtering proxy of one parsed
request (§4.6): the §4.3 decision on the current snapshot; allowed
`CONNECT`s get the 200 tunnel reply, allowed plain HTTP is forwarded
verbatim, denied requests get the 403 reply and the connection is closed. -/
def handleRequest (cfg : NetworkRestrictionConfig) (req : ProxyRequest) : ProxyAction :=
  if decideHost cfg req.host req.port then
    match req with
    | .connect _ _ => .tunnel "HTTP/1.1 200 Connection Established\r\n\r\n"
    | .plainHttp _ _ => .forward
  else .deny blockedReply true

/-- Claim C9: an allowed `CONNECT` is answered with
`HTTP/1.1 200 Connection Established` and a blank line; every denied
request (CONNECT or plain HTTP) is answered with a 403 reply whose body
contains the literal phrase `blocked by network allowlist`, and the
connection is closed. -/
theorem proxy_wire_replies (cfg : NetworkRestrictionConfig) (req : ProxyRequest) :
    (∀ (host : String) (port : Nat), decideHost cfg host port = true →
      handleRequest cfg (.connect host port) =
        .tunnel "HTTP/1.1 200 Connection Established\r\n\r\n") ∧
    (decideHost cfg req.host req.port = false →
      ∃ pre, handleRequest cfg req =
          .deny (pre ++ "blocked by network allowlist") true ∧
        ∃ rest, pre ++ "blocked by network allowlist" =
          "HTTP/1.1 403 Forbidden" ++ rest) := by
  constructor
  · intro host port hallow
    simp [handleRequest, ProxyRequest.host, ProxyRequest.port, hallow]
  · intro hdeny
    refine ⟨"HTTP/1.1 403 Forbidden" ++ ("\r\nContent-Length: " ++
      (toString blockedBody.length ++ "\r\n\r\n")), ?_, ?_⟩
    · simp [handleRequest, hdeny, blockedReply, blockedBody, String.append_assoc]
    · exact ⟨"\r\nContent-Length: " ++ (toString blockedBody.length ++
        ("\r\n\r\n" ++ "blocked by network allowlist")), by
          simp [String.append_assoc]⟩

/-- Witness for C9, at the test policy allowing only `example.com`: the
allowed CONNECT gets the 200 reply and a denied request to `other.com` gets
the closing 403 with the allowlist body. -/
theorem proxy_wire_replies_witness :
    handleRequest ⟨some ["example.com"], none⟩
        (ProxyRequest.connect "example.com" 443) =
      ProxyAction.tunnel "HTTP/1.1 200 Connection Established\r\n\r\n" ∧
    (∃ pre, handleRequest ⟨some ["example.com"], none⟩
          (ProxyRequest.plainHttp "other.com" 80) =
        ProxyAction.deny (pre ++ "blocked by network allowlist") true ∧
      ∃ rest, pre ++ "blocked by network allowlist" =
        "HTTP/1.1 403 Forbidden" ++ rest) :=
  ⟨(proxy_wire_replies ⟨some ["example.com"], none⟩
      (ProxyRequest.connect "example.com" 443)).1 "example.com" 443 (by decide),
    (proxy_wire_replies ⟨some ["example.com"], none⟩
      (ProxyRequest.plainHttp "other.com" 80)).2 (by decide)⟩

/-! ## Seccomp artifact resolver (component F)

The resolver and the pre-compiled BPF blob are not in the shipped sources
(only the test asserting the vendored blob and the `nc -U` behaviour are);
modelled from spec §4.5 "Seccomp filter (F)". -/

/-- The pre-compiled BPF blob variants staged from the vendored artifact
directory. -/
inductive SeccompBlobVariant
  | restrictUnix
  | allowAllUnix
deriving DecidableEq

/-- Modelled from the spec: the resolver `generateSeccompFilter` (§4.5 F):
stages the pre-compiled blob for the current ABI; the variant that does not
restrict `AF_UNIX` is selected exactly when the caller requests
`allow_all_unix_sockets`. -/
def generateSeccompFilter (allowAllUnixSockets : Bool) : SeccompBlobVariant :=
  if allowAllUnixSockets then SeccompBlobVariant.allowAllUnix
  else SeccompBlobVariant.restrictUnix

/-- Socket address families as discriminated by the filter: `AF_UNIX`,
`AF_INET` over loopback, `AF_INET` to remote addresses, anything else. -/
inductive SockFamily
  | afUnix
  | afInetLoopback
  | afInetRemote
  | afOther
deriving DecidableEq

/-- Modelled from the spec and the shipped integration test: whether a blob
variant blocks creation of a socket of the given family (§4.5 F).  Every
variant blocks families other than `AF_UNIX` and `AF_INET` over loopback;
the default variant additionally restricts `AF_UNIX` (the shipped test pins
that `nc -U` to an arbitrary socket fails under the default configuration),
while the `allow_all_unix_sockets` variant does not restrict `AF_UNIX`. -/
def blobBlocksSocket : SeccompBlobVariant → SockFamily → Bool
  | _, SockFamily.afInetLoopback => false
  | _, SockFamily.afInetRemote => true
  | _, SockFamily.afOther => true
  | SeccompBlobVariant.restrictUnix, SockFamily.afUnix => true
  | SeccompBlobVariant.allowAllUnix, SockFamily.afUnix => false

/-- Modelled from the spec: every blob variant blocks `mknod` (§4.5 F). -/
def blobBlocksMknod : SeccompBlobVariant → Bool := fun _ => true

/-- Claim C10: the pre-compiled filter blocks socket creation for address
families other than `AF_UNIX` and `AF_INET` over loopback and blocks
`mknod`; the resolver selects the variant that does not restrict `AF_UNIX`
exactly when `allow_all_unix_sockets` is requested; and under the default
configuration a connection to an arbitrary `AF_UNIX` socket is blocked, as
the filter dictates. -/
theorem seccomp_filter_policy (v : SeccompBlobVariant) (fam : SockFamily)
    (h1 : fam ≠ SockFamily.afUnix) (h2 : fam ≠ SockFamily.afInetLoopback) :
    blobBlocksSocket v fam = true ∧
    (∀ w, blobBlocksMknod w = true) ∧
    (∀ flag, generateSeccompFilter flag = SeccompBlobVariant.allowAllUnix ↔ flag = true) ∧
    blobBlocksSocket (generateSeccompFilter true) SockFamily.afUnix = false ∧
    blobBlocksSocket (generateSeccompFilter false) SockFamily.afUnix = true := by
  refine ⟨?_, fun w => rfl, ?_, rfl, rfl⟩
  · cases v <;> cases fam <;> simp_all [blobBlocksSocket]
  · intro flag
    cases flag <;> simp [generateSeccompFilter]

/-- Witness for C10: the default blob blocks remote `AF_INET` sockets. -/
theorem seccomp_filter_policy_witness :
    blobBlocksSocket (generateSeccompFilter false) SockFamily.afInetRemote = true ∧
    (∀ w, blobBlocksMknod w = true) ∧
    (∀ flag, generateSeccompFilter flag = SeccompBlobVariant.allowAllUnix ↔ flag = true) ∧
    blobBlocksSocket (generateSeccompFilter true) SockFamily.afUnix = false ∧
    blobBlocksSocket (generateSeccompFilter false) SockFamily.afUnix = true :=
  seccomp_filter_policy (generateSeccompFilter false) SockFamily.afInetRemote
    (by decide) (by decide)

end SandboxRuntime
